import Mathlib

/-!
Verification of the EBS snapshot tier evaluator (`src/snapshot_evaluator.py`).

The Python worker is embedded shallowly: the AWS clients (`ebs`, `ec2`, `s3`)
become an explicit `Env` of response functions, the S3 cache bucket becomes an
explicit association list threaded through the functions that touch it, and
Python exceptions become `Except PyErr`.  `decimal.Decimal` values are modelled
as exact rationals; the float division inside `bytes_to_gb` is modelled by
rounding the integer byte count to 53 significant bits (round half to even),
which is exactly the value IEEE-754 double division by the power of two
`2^30` produces.  zlib compression is modelled as an injective framing
(DEFLATE is lossless, so decompression of a compressed payload restores the
payload; the model keeps the payload behind the standard two-byte header).
-/

set_option maxRecDepth 10000

namespace EbsEval

/-- Enum for Snapshot Evaluation Scenario (`EvalScenario` in the source). -/
inductive EvalScenario where
  | BOTH
  | NEITHER
  | BEFORE
  | AFTER
deriving DecidableEq

/-- One element of a `ListChangedBlocks` response, after the evaluator strips
the `FirstBlockToken`/`SecondBlockToken` fields: only the block index is kept. -/
structure ChangedBlock where
  BlockIndex : Nat
deriving DecidableEq

/-- Response of `ebs.list_snapshot_blocks` after pagination is flattened:
the list of block indices plus the volume size (GB) and block size (bytes).
The evaluator only reads `len(Blocks)`, `VolumeSize` and `BlockSize`. -/
structure SnapshotBlocksResponse where
  Blocks : List Nat
  VolumeSize : Nat
  BlockSize : Nat
deriving DecidableEq

/-- Response of `ebs.list_changed_blocks` after pagination is flattened and
token fields are stripped.  The crafted "no changed blocks" response of the
empty-snapshot edge case also carries dummy `VolumeSize`/`BlockSize` fields
in the source; the evaluator never reads them, so they are omitted here. -/
structure ChangedBlocksResponse where
  ChangedBlocks : List ChangedBlock
deriving DecidableEq

/-- One snapshot record of a `describe_snapshots` listing: the id and the
creation timestamp (`StartTime`), which is the sole ordering key. -/
structure SnapshotDesc where
  SnapshotId : String
  StartTime : Nat
deriving DecidableEq

/-- Python exceptions that can escape the embedded fragment. -/
inductive PyErr where
  | clientError (msg : List Char)
  | validationError (msg : List Char)
  | s3PutError
  | exception (msg : List Char)
deriving DecidableEq

/-- Pricing payload handed to `main` (already converted to `Decimal` by
`convert_pricing_data_to_decimal`); modelled as exact rationals. -/
structure Pricing where
  std_tier_snapshot_pricing : Rat
  archive_tier_snapshot_pricing : Rat
deriving DecidableEq

/-- Function to calculate the approximate size of the full snapshot. -/
def calculate_approx_full_snapshot_size (number_of_blocks : Nat)
    (block_size_bytes : Nat) : Nat :=
  number_of_blocks * block_size_bytes

/-- Bit length of a natural number, computed with explicit fuel so that the
kernel can evaluate it (`bitLen n` uses fuel `n`, which is always enough). -/
def bitLenAux : Nat → Nat → Nat
  | 0, _ => 0
  | fuel+1, n => if n = 0 then 0 else bitLenAux fuel (n / 2) + 1

/-- Bit length of a natural number (`0` has bit length `0`). -/
def bitLen (n : Nat) : Nat := bitLenAux n n

/-- Round `q + r / d` (with `r < d`) to the nearest integer, ties to even:
the rounding IEEE-754 binary64 division performs on the discarded bits. -/
def roundHalfEven (q r d : Nat) : Nat :=
  if 2 * r < d then q
  else if d < 2 * r then q + 1
  else if q % 2 = 0 then q else q + 1

/-- Round a natural number to 53 significant bits (round half to even).
Dividing `n` by the power of two `2^30` in binary64 floating point yields
exactly `roundSig53 n / 2^30`, because dividing by a power of two only
shifts the exponent. -/
def roundSig53 (n : Nat) : Nat :=
  if bitLen n ≤ 53 then n
  else
    let k := bitLen n - 53
    roundHalfEven (n / 2 ^ k) (n % 2 ^ k) (2 ^ k) * 2 ^ k

/-- Function to convert bytes to GB.  The source computes
`decimal.Decimal(size_in_bytes / BYTES_PER_GB)` where the division is Python
float division; the float rounding is modelled by `roundSig53`, and the exact
`Decimal` image of the resulting float is the rational below. -/
def bytes_to_gb (size_in_bytes : Nat) : Rat :=
  (roundSig53 size_in_bytes : Rat) / 1073741824

/-! ### JSON / zlib codec used by the cache

`compress_json(data) = zlib.compress(json.dumps(data).encode("utf-8"))` and
`decompress_json` is its inverse.  The payload stored in the cache is always
the list of changed-block records, each a one-key object
`\x7b"BlockIndex": n\x7d`, so the serializer and the `json.loads` model are
specialised to that shape.  Bytes are represented as `List Char`. -/

/-- Little-endian base-10 digits of `n`, with explicit fuel (fuel `n` is
always enough) so the kernel can evaluate the function. -/
def natDigitsAux : Nat → Nat → List Nat
  | 0, _ => []
  | fuel+1, n => if n = 0 then [] else n % 10 :: natDigitsAux fuel (n / 10)

/-- Little-endian base-10 digits of `n` (empty for `0`). -/
def natDigits (n : Nat) : List Nat := natDigitsAux n n

/-- Value of a little-endian digit list. -/
def fromDigits : List Nat → Nat
  | [] => 0
  | d :: ds => d + 10 * fromDigits ds

/-- Character for a single decimal digit. -/
def digitToChar : Nat → Char
  | 0 => '0' | 1 => '1' | 2 => '2' | 3 => '3' | 4 => '4'
  | 5 => '5' | 6 => '6' | 7 => '7' | 8 => '8' | _ => '9'

/-- Numeric value of a decimal digit character (`0` for non-digits). -/
def charToDigit (c : Char) : Nat :=
  match c with
  | '0' => 0 | '1' => 1 | '2' => 2 | '3' => 3 | '4' => 4
  | '5' => 5 | '6' => 6 | '7' => 7 | '8' => 8 | '9' => 9
  | _ => 0

/-- Test for a decimal digit character. -/
def isDigitCh (c : Char) : Bool := '0' ≤ c && c ≤ '9'

/-- Decimal rendering of a natural number, as `json.dumps` prints it. -/
def dumpNat (n : Nat) : List Char :=
  if n = 0 then ['0'] else ((natDigits n).reverse).map digitToChar

/-- Leading characters of one serialised changed-block object:
`\x7b"BlockIndex": `. -/
def itemLead : List Char :=
  ['\x7b', '\"', 'B', 'l', 'o', 'c', 'k', 'I', 'n', 'd', 'e', 'x', '\"', ':', ' ']

/-- Serialisation of one changed-block record, exactly as `json.dumps`
renders the dict `\x7b'BlockIndex': n\x7d`. -/
def dumpItem (b : ChangedBlock) : List Char :=
  itemLead ++ dumpNat b.BlockIndex ++ ['\x7d']

/-- Serialisation of the items of a list, joined with `json.dumps`'s default
item separator `", "`. -/
def dumpItems : List ChangedBlock → List Char
  | [] => []
  | [b] => dumpItem b
  | b :: bs => dumpItem b ++ [',', ' '] ++ dumpItems bs

/-- Model of `json.dumps` on a changed-block list. -/
def json_dumps_blocks (bs : List ChangedBlock) : List Char :=
  '[' :: (dumpItems bs ++ [']'])

/-- Strip an expected leading character sequence; `none` when absent. -/
def dropLeading : List Char → List Char → Option (List Char)
  | [], cs => some cs
  | _ :: _, [] => none
  | p :: ps, c :: cs => if c = p then dropLeading ps cs else none

/-- Value of a most-significant-first digit-character list. -/
def digitsVal (cs : List Char) : Nat :=
  cs.foldl (fun acc c => acc * 10 + charToDigit c) 0

/-- Parse a decimal numeral; `none` when the input does not start with a
digit. -/
def parseNat (cs : List Char) : Option (Nat × List Char) :=
  let ds := cs.takeWhile isDigitCh
  if ds.isEmpty then none
  else some (digitsVal ds, cs.dropWhile isDigitCh)

/-- Parse one serialised changed-block object. -/
def parseItem (cs : List Char) : Option (ChangedBlock × List Char) :=
  match dropLeading itemLead cs with
  | none => none
  | some rest =>
    match parseNat rest with
    | none => none
    | some (n, rest1) =>
      match rest1 with
      | '\x7d' :: rest2 => some (⟨n⟩, rest2)
      | _ => none

/-- Parse a non-empty `", "`-separated sequence of changed-block objects,
with explicit fuel (one unit per item). -/
def parseItemsAux : Nat → List Char → Option (List ChangedBlock × List Char)
  | 0, _ => none
  | fuel+1, cs =>
    match parseItem cs with
    | none => none
    | some (b, rest) =>
      match rest with
      | ',' :: ' ' :: rest1 =>
        match parseItemsAux fuel rest1 with
        | some (bs, rest2) => some (b :: bs, rest2)
        | none => none
      | _ => some ([b], rest)

/-- Model of `json.loads`, specialised to the serialised shape produced by
`json_dumps_blocks`; `none` models a `json.loads` exception. -/
def json_loads_blocks (cs : List Char) : Option (List ChangedBlock) :=
  match cs with
  | '[' :: rest =>
    if rest = [']'] then some []
    else
      match parseItemsAux rest.length rest with
      | some (bs, [']']) => some bs
      | _ => none
  | _ => none

/-- Two-byte zlib stream header (`0x78 0x9c`, zlib default compression). -/
def zlibHeader : List Char := ['\x78', '\x9c']

/-- Model of `zlib.compress`: an injective framing of the payload.  DEFLATE
is lossless, so only invertibility is observable to the evaluator. -/
def zlib_compress (cs : List Char) : List Char := zlibHeader ++ cs

/-- Model of `zlib.decompress`; `none` models a `zlib.error` on input that is
not a zlib stream. -/
def zlib_decompress (cs : List Char) : Option (List Char) :=
  if cs.take 2 = zlibHeader then some (cs.drop 2) else none

/-- Function to compress the json string (`compress_json` in the source). -/
def compress_json (data : List ChangedBlock) : List Char :=
  zlib_compress (json_dumps_blocks data)

/-- Function to decompress the json string (`decompress_json` in the source);
`none` models an exception raised on corrupt input. -/
def decompress_json (data : List Char) : Option (List ChangedBlock) :=
  (zlib_decompress data).bind json_loads_blocks

/-! ### Environment model

The AWS clients become a record of response functions; the S3 cache bucket
becomes an association list from object key to stored body, threaded through
the functions that touch it (later entries shadow earlier ones, like S3
overwrites).  Injected faults model the provider raising exceptions. -/

/-- Contents of the S3 cache bucket: object key to stored body. -/
abbrev CacheStore := List (String × List Char)

/-- Possible outcomes of the `ebs.list_snapshot_blocks` call (pagination
already flattened): success, `ResourceNotFoundException`, or another
`ClientError` that `get_snapshot_blocks` re-raises. -/
inductive BlocksOutcome where
  | ok (response : SnapshotBlocksResponse)
  | notFound
  | otherError (msg : List Char)
deriving DecidableEq

/-- Possible outcomes of the `ebs.list_changed_blocks` call (pagination
already flattened): success, `ValidationException` with a message,
`ResourceNotFoundException`, or another exception that propagates. -/
inductive DiffOutcome where
  | ok (blocks : List ChangedBlock)
  | validationError (msg : List Char)
  | notFound
  | otherError (msg : List Char)
deriving DecidableEq

/-- The provider world as the evaluator observes it. -/
structure Env where
  listSnapshotBlocks : String → BlocksOutcome
  sourceVolumeOf : String → Option String
  volumeSnapshots : String → List SnapshotDesc
  listChangedBlocks : String → String → DiffOutcome
  s3GetFault : String → Bool
  s3PutFault : String → Bool

/-- Function to get the snapshot blocks by calling `list_snapshot_blocks`:
`ResourceNotFoundException` is downgraded to `None`, any other `ClientError`
is re-raised. -/
def get_snapshot_blocks (env : Env) (snapshot : String) :
    Except PyErr (Option SnapshotBlocksResponse) :=
  match env.listSnapshotBlocks snapshot with
  | .ok r => .ok (some r)
  | .notFound => .ok none
  | .otherError msg => .error (.clientError msg)

/-- Function to get the volume id from the snapshot id; a `ClientError`
is caught and downgraded to `None`. -/
def get_source_volume_id (env : Env) (snapshot_id : String) : Option String :=
  env.sourceVolumeOf snapshot_id

/-- Function that calls the AWS API and returns all snapshots for the EBS
volume supplied (pagination already flattened). -/
def get_volume_snapshots (env : Env) (ebs_volume_id : String) : List SnapshotDesc :=
  env.volumeSnapshots ebs_volume_id

/-- Stable insertion step for the sort below. -/
def insertByStartTime (s : SnapshotDesc) : List SnapshotDesc → List SnapshotDesc
  | [] => [s]
  | t :: ts =>
    if s.StartTime ≤ t.StartTime then s :: t :: ts else t :: insertByStartTime s ts

/-- Function to sort all of the snapshots by the creation date
(`sorted(snapshots, key=lambda x: x.get('StartTime'))`).  Python's `sorted`
is a stable ascending sort by key; a stable insertion sort computes the same
list and keeps the model kernel-evaluable. -/
def sort_snapshots_by_created_date (snapshots : List SnapshotDesc) : List SnapshotDesc :=
  snapshots.foldr insertByStartTime []

/-- Returns the snapshot obj before and after the target snapshot.  The
source scans for the first index whose `SnapshotId` equals the target and
takes the previous/next element when they exist; when the target is absent
the loop falls through and both results stay `None`. -/
def get_surrounding_snapshots (list_of_snapshots : List SnapshotDesc)
    (the_target_snapshot : String) : Option SnapshotDesc × Option SnapshotDesc :=
  match list_of_snapshots.findIdx? (fun s => s.SnapshotId == the_target_snapshot) with
  | none => (none, none)
  | some index =>
    (if 0 < index then list_of_snapshots[index - 1]? else none,
     if index < list_of_snapshots.length - 1 then list_of_snapshots[index + 1]? else none)

/-- Python truthiness of the optional snapshot dicts handed to
`determine_eval_scenario` (`None` is falsy, the AWS snapshot dicts are
non-empty and hence truthy). -/
def truthy (o : Option SnapshotDesc) : Bool := o.isSome

/-- Contains the logic to identify the snapshot scenario for the target EBS
snapshot; the final `else` raises and is modelled as `.error` (the message
text is immaterial to the evaluator). -/
def determine_eval_scenario (snapshot_before snapshot_after : Option SnapshotDesc) :
    Except (List Char) EvalScenario :=
  if !truthy snapshot_before && !truthy snapshot_after then .ok .NEITHER
  else if truthy snapshot_before && truthy snapshot_after then .ok .BOTH
  else if truthy snapshot_before && !truthy snapshot_after then .ok .BEFORE
  else if !truthy snapshot_before && truthy snapshot_after then .ok .AFTER
  else .error "scenario not catered for".toList

/-- Cache object key for an ordered snapshot pair
(`f"\x7bsnap1\x7d_\x7bsnap2\x7d.json.zlib"`). -/
def cache_key (snap1 snap2 : String) : String :=
  snap1 ++ "_" ++ snap2 ++ ".json.zlib"

/-- Full S3 key of a cache entry (`'cache/' + cache_key`). -/
def s3_cache_path (snap1 snap2 : String) : String :=
  "cache/" ++ cache_key snap1 snap2

/-- Function to get the cached changed blocks from the cache.  A missing key
(`NoSuchKey`), a faulted S3 get, or a failing decompression all fall into the
`except` branches and yield `False` (here `none`); a hit wraps the stored
block list in the expected response shape. -/
def get_cached_changed_blocks (env : Env) (store : CacheStore) (snap1 snap2 : String) :
    Option ChangedBlocksResponse :=
  let key := s3_cache_path snap1 snap2
  if env.s3GetFault key then none
  else
    match store.lookup key with
    | none => none
    | some body =>
      match decompress_json body with
      | none => none
      | some result => some { ChangedBlocks := result }

/-- Function to store the changed blocks in the cache.  The source has no
`try`/`except`: a failing `put_object` raises out of the function. -/
def store_cached_changed_blocks (env : Env) (store : CacheStore) (snap1 snap2 : String)
    (changed_blocks : List ChangedBlock) : Except PyErr CacheStore :=
  let key := s3_cache_path snap1 snap2
  if env.s3PutFault key then .error .s3PutError
  else .ok ((key, compress_json changed_blocks) :: store)

/-- Test whether `pat` occurs as a leading segment of the second list. -/
def leadsWith : List Char → List Char → Bool
  | [], _ => true
  | _ :: _, [] => false
  | p :: ps, c :: cs => p == c && leadsWith ps cs

/-- Test whether `pat` occurs contiguously anywhere in the second list
(Python's `pat in msg` on strings). -/
def hasSubstr (pat : List Char) : List Char → Bool
  | [] => pat.isEmpty
  | c :: cs => leadsWith pat (c :: cs) || hasSubstr pat cs

/-- The substring the source looks for in the `ValidationException` message
to recognise the empty-snapshot edge case. -/
def isEmptyMsg : List Char := ['i', 's', ' ', 'e', 'm', 'p', 't', 'y']

/-- Cache-miss path of `get_changed_blocks` (the `else` branch): query the
provider, store the result in the cache, and handle the two caught exception
kinds.  A `ValidationException` whose message contains `"is empty"` becomes
the crafted empty response; `ResourceNotFoundException` becomes `None`; any
other exception, including a failing cache store, propagates. -/
def fetch_and_store (env : Env) (store : CacheStore) (snap1 snap2 : String) :
    Except PyErr (CacheStore × Option ChangedBlocksResponse) :=
  match env.listChangedBlocks snap1 snap2 with
  | .ok blocks =>
    match store_cached_changed_blocks env store snap1 snap2 blocks with
    | .ok store1 => .ok (store1, some { ChangedBlocks := blocks })
    | .error e => .error e
  | .validationError msg =>
    if hasSubstr isEmptyMsg msg then .ok (store, some { ChangedBlocks := [] })
    else .error (.validationError msg)
  | .notFound => .ok (store, none)
  | .otherError msg => .error (.clientError msg)

/-- Function that calls the `list_changed_blocks` API and returns the
response: a truthy cached result short-circuits, otherwise the provider is
queried via `fetch_and_store`. -/
def get_changed_blocks (env : Env) (store : CacheStore) (snap1 snap2 : String) :
    Except PyErr (CacheStore × Option ChangedBlocksResponse) :=
  match get_cached_changed_blocks env store snap1 snap2 with
  | some cached_result => .ok (store, some cached_result)
  | none => fetch_and_store env store snap1 snap2

/-- The `eval_data` dict `main` builds incrementally: every key becomes an
optional field, `none` meaning the key was never set. -/
structure EvalData where
  target_snapshot : String
  error_message : Option String := none
  error_code : Option String := none
  source_ebs_volume_size_gb : Option Nat := none
  snapshot_block_size_bytes : Option Nat := none
  approx_full_snapshot_size_bytes : Option Nat := none
  snapshot_source_volume_id : Option String := none
  snapshot_before : Option (Option String) := none
  snapshot_after : Option (Option String) := none
  approx_size_target_snapshot_bytes : Option Nat := none
  approx_size_target_snapshot_removed_bytes : Option Nat := none
  cost_estimate_90days_target_snapshot_in_std_tier : Option Rat := none
  cost_estimate_90days_target_snapshot_in_archive_tier : Option Rat := none
deriving DecidableEq

/-- This function contains the main script logic flow (`main` in the source).
The cache store is threaded explicitly; the result pairs the final store with
the returned `eval_data`. -/
def main (env : Env) (store : CacheStore) (target_snapshot : String) (pricing : Pricing) :
    Except PyErr (CacheStore × EvalData) :=
  let EBS_STD_SNAPSHOT_PRICE_GB_MONTH := pricing.std_tier_snapshot_pricing
  let EBS_ARCHIVE_SNAPSHOT_PRICE_GB_MONTH := pricing.archive_tier_snapshot_pricing
  let eval0 : EvalData := { target_snapshot := target_snapshot }
  -- Step 1 - Determine Full Snapshot Size
  match get_snapshot_blocks env target_snapshot with
  | .error e => .error e
  | .ok none =>
    .ok (store, { eval0 with
      error_message := some ("Unable to find snapshot blocks for snapshot: " ++ target_snapshot),
      error_code := some "SNAPSHOT_BLOCKS_NOT_FOUND" })
  | .ok (some snapshot_blocks) =>
    let snapshot_block_size_bytes := snapshot_blocks.BlockSize
    let number_of_blocks := snapshot_blocks.Blocks.length
    let approx_full_snapshot_size_bytes :=
      calculate_approx_full_snapshot_size number_of_blocks snapshot_block_size_bytes
    let eval1 := { eval0 with
      source_ebs_volume_size_gb := some snapshot_blocks.VolumeSize,
      snapshot_block_size_bytes := some snapshot_block_size_bytes,
      approx_full_snapshot_size_bytes := some approx_full_snapshot_size_bytes }
    -- Step 2 - Find Source Volume
    match get_source_volume_id env target_snapshot with
    | none =>
      .ok (store, { eval1 with
        error_message := some ("Error identifying the source volume for snapshot: " ++ target_snapshot),
        error_code := some "SOURCE_VOLUME_NOT_FOUND" })
    | some snapshot_source_volume_id =>
      let eval2 := { eval1 with snapshot_source_volume_id := some snapshot_source_volume_id }
      -- Steps 3 to 5 - enumerate, sort, and locate the surrounding snapshots
      let all_volume_snapshots := get_volume_snapshots env snapshot_source_volume_id
      let sorted_snapshots := sort_snapshots_by_created_date all_volume_snapshots
      let surrounding := get_surrounding_snapshots sorted_snapshots target_snapshot
      let snapshot_before := surrounding.1
      let snapshot_after := surrounding.2
      let eval3 := { eval2 with
        snapshot_before := some (snapshot_before.map SnapshotDesc.SnapshotId),
        snapshot_after := some (snapshot_after.map SnapshotDesc.SnapshotId) }
      -- Step 8 - the cost block shared by every non-error path below
      let finishCosts := fun (store9 : CacheStore) (approx_size_bytes : Nat) (eval9 : EvalData) =>
        Except.ok (ε := PyErr) (store9, { eval9 with
          cost_estimate_90days_target_snapshot_in_std_tier :=
            some (bytes_to_gb approx_size_bytes * EBS_STD_SNAPSHOT_PRICE_GB_MONTH * 3),
          cost_estimate_90days_target_snapshot_in_archive_tier :=
            some (bytes_to_gb approx_full_snapshot_size_bytes * EBS_ARCHIVE_SNAPSHOT_PRICE_GB_MONTH * 3) })
      -- Step 6a - Identifying the current snapshot scenario
      match determine_eval_scenario snapshot_before snapshot_after with
      | .error msg => .error (.exception msg)
      | .ok scenario =>
        -- the four mutually exclusive `if` branches of Step 6; the arms where
        -- the scenario promises a neighbour that is absent are unreachable
        -- (in Python they would be a `TypeError` on `None["SnapshotId"]`)
        match scenario, snapshot_before, snapshot_after with
        | .NEITHER, _, _ =>
          let approx_size_target_snapshot_bytes := approx_full_snapshot_size_bytes
          finishCosts store approx_size_target_snapshot_bytes { eval3 with
            approx_size_target_snapshot_bytes := some approx_size_target_snapshot_bytes,
            approx_size_target_snapshot_removed_bytes := some approx_size_target_snapshot_bytes }
        | .BOTH, some snap_before, some snap_after =>
          match get_changed_blocks env store snap_before.SnapshotId target_snapshot with
          | .error e => .error e
          | .ok (store1, none) =>
            .ok (store1, { eval3 with
              error_message := some ("Unable to find snapshot during changed block analysis: " ++ target_snapshot),
              error_code := some "SNAPSHOT_NOT_FOUND" })
          | .ok (store1, some changed_blocks_before) =>
            match get_changed_blocks env store1 target_snapshot snap_after.SnapshotId with
            | .error e => .error e
            | .ok (store2, none) =>
              .ok (store2, { eval3 with
                error_message := some ("Unable to find snapshot during changed block analysis: " ++ target_snapshot),
                error_code := some "SNAPSHOT_NOT_FOUND" })
            | .ok (store2, some changed_blocks_after) =>
              -- Step 7 - the before/after index lists and their set intersection
              let seen_changed_block_index_before :=
                changed_blocks_before.ChangedBlocks.map ChangedBlock.BlockIndex
              let seen_changed_block_index_after :=
                changed_blocks_after.ChangedBlocks.map ChangedBlock.BlockIndex
              let approx_size_target_snapshot_bytes :=
                seen_changed_block_index_before.length * snapshot_blocks.BlockSize
              let block_indexes_in_both_comparisons :=
                seen_changed_block_index_before.toFinset ∩ seen_changed_block_index_after.toFinset
              let approx_size_target_snapshot_removed_bytes :=
                block_indexes_in_both_comparisons.card * snapshot_blocks.BlockSize
              finishCosts store2 approx_size_target_snapshot_bytes { eval3 with
                approx_size_target_snapshot_bytes := some approx_size_target_snapshot_bytes,
                approx_size_target_snapshot_removed_bytes := some approx_size_target_snapshot_removed_bytes }
        | .BOTH, _, _ => .error (.exception "TypeError".toList)
        | .BEFORE, some snap_before, _ =>
          match get_changed_blocks env store snap_before.SnapshotId target_snapshot with
          | .error e => .error e
          | .ok (store1, none) =>
            .ok (store1, { eval3 with
              error_message := some ("Unable to find snapshot during changed block analysis: " ++ target_snapshot),
              error_code := some "SNAPSHOT_NOT_FOUND" })
          | .ok (store1, some changed_blocks_before) =>
            let approx_size_target_snapshot_bytes :=
              changed_blocks_before.ChangedBlocks.length * snapshot_blocks.BlockSize
            finishCosts store1 approx_size_target_snapshot_bytes { eval3 with
              approx_size_target_snapshot_bytes := some approx_size_target_snapshot_bytes,
              approx_size_target_snapshot_removed_bytes := some approx_size_target_snapshot_bytes }
        | .BEFORE, _, _ => .error (.exception "TypeError".toList)
        | .AFTER, _, some snap_after =>
          match get_changed_blocks env store target_snapshot snap_after.SnapshotId with
          | .error e => .error e
          | .ok (store1, none) =>
            .ok (store1, { eval3 with
              error_message := some ("Unable to find snapshot during changed block analysis: " ++ target_snapshot),
              error_code := some "SNAPSHOT_NOT_FOUND" })
          | .ok (store1, some changed_blocks_after) =>
            let approx_size_target_snapshot_bytes :=
              snapshot_blocks.Blocks.length * snapshot_blocks.BlockSize
            let approx_size_target_snapshot_removed_bytes :=
              changed_blocks_after.ChangedBlocks.length * snapshot_blocks.BlockSize
            finishCosts store1 approx_size_target_snapshot_bytes { eval3 with
              approx_size_target_snapshot_bytes := some approx_size_target_snapshot_bytes,
              approx_size_target_snapshot_removed_bytes := some approx_size_target_snapshot_removed_bytes }
        | .AFTER, _, _ => .error (.exception "TypeError".toList)

/-- One SQS record of a `lambda_handler` event, after `json.loads` and
`convert_pricing_data_to_decimal` (payload parsing is outside the model). -/
structure SQSRecord where
  jobid : String
  snapshot_id : String
  pricing_data : Pricing

/-- One row `update_ddb_table` writes to the evaluation-results table. -/
structure DDBRow where
  JobId : String
  SnapshotId : String
  data : EvalData
deriving DecidableEq

/-- Handles invocation as an AWS Lambda function.  The source iterates
`event['Records']` but the `return True` sits inside the loop body, so only
the first record is processed and the remaining records are dropped; an
empty record list falls through the loop and returns Python `None`
(modelled `none`).  The DynamoDB write is modelled as the returned row
list. -/
def lambda_handler (env : Env) (store : CacheStore) (records : List SQSRecord) :
    Except PyErr (CacheStore × List DDBRow × Option Bool) :=
  match records with
  | [] => .ok (store, [], none)
  | record :: _rest =>
    match main env store record.snapshot_id record.pricing_data with
    | .error e => .error e
    | .ok (store1, data) =>
      .ok (store1, [{ JobId := record.jobid, SnapshotId := record.snapshot_id, data := data }], some true)

/-! ### Round-trip of the cache codec -/

theorem natDigitsAux_lt : ∀ fuel n d, d ∈ natDigitsAux fuel n → d < 10 := by
  intro fuel
  induction fuel with
  | zero => intro n d h; simp [natDigitsAux] at h
  | succ fuel ih =>
    intro n d h
    by_cases hn : n = 0
    · simp [natDigitsAux, hn] at h
    · simp only [natDigitsAux, if_neg hn, List.mem_cons] at h
      rcases h with h | h
      · subst h; exact Nat.mod_lt n (by omega)
      · exact ih _ _ h

theorem fromDigits_natDigitsAux : ∀ fuel n, n ≤ fuel →
    fromDigits (natDigitsAux fuel n) = n := by
  intro fuel
  induction fuel with
  | zero => intro n h; interval_cases n; simp [natDigitsAux, fromDigits]
  | succ fuel ih =>
    intro n h
    by_cases hn : n = 0
    · simp [natDigitsAux, hn, fromDigits]
    · have hdiv : n / 10 ≤ fuel := by
        have : n / 10 < n := Nat.div_lt_self (Nat.pos_of_ne_zero hn) (by omega)
        omega
      simp only [natDigitsAux, if_neg hn, fromDigits, ih (n / 10) hdiv]
      omega

theorem fromDigits_natDigits (n : Nat) : fromDigits (natDigits n) = n :=
  fromDigits_natDigitsAux n n (Nat.le_refl n)

theorem natDigits_lt (n : Nat) : ∀ d ∈ natDigits n, d < 10 :=
  fun d h => natDigitsAux_lt n n d h

theorem charToDigit_digitToChar : ∀ d, d < 10 → charToDigit (digitToChar d) = d := by
  decide

theorem isDigitCh_digitToChar : ∀ d, d < 10 → isDigitCh (digitToChar d) = true := by
  decide

theorem digitsVal_reverse_map (ds : List Nat) (h : ∀ d ∈ ds, d < 10) :
    digitsVal ((ds.reverse).map digitToChar) = fromDigits ds := by
  induction ds with
  | nil => simp [digitsVal, fromDigits]
  | cons d ds ih =>
    have hd : d < 10 := h d (List.mem_cons_self d ds)
    have hds : ∀ x ∈ ds, x < 10 := fun x hx => h x (List.mem_cons_of_mem d hx)
    simp only [List.reverse_cons, List.map_append, List.map_cons, List.map_nil]
    simp only [digitsVal, List.foldl_append, List.foldl_cons, List.foldl_nil] at *
    rw [ih hds]
    simp [fromDigits, charToDigit_digitToChar d hd]
    ring

theorem dumpNat_all_digits (n : Nat) : ∀ c ∈ dumpNat n, isDigitCh c = true := by
  intro c hc
  unfold dumpNat at hc
  by_cases hn : n = 0
  · simp [hn] at hc
    simp [hc, isDigitCh]
  · simp only [if_neg hn, List.mem_map, List.mem_reverse] at hc
    rcases hc with ⟨d, hd, rfl⟩
    exact isDigitCh_digitToChar d (natDigits_lt n d hd)

theorem dumpNat_ne_nil (n : Nat) : dumpNat n ≠ [] := by
  unfold dumpNat
  by_cases hn : n = 0
  · simp [hn]
  · simp only [if_neg hn]
    intro h
    rw [List.map_eq_nil_iff, List.reverse_eq_nil_iff] at h
    have := fromDigits_natDigits n
    rw [h] at this
    simp [fromDigits] at this
    exact hn this.symm

theorem digitsVal_dumpNat (n : Nat) : digitsVal (dumpNat n) = n := by
  unfold dumpNat
  by_cases hn : n = 0
  · simp [hn, digitsVal, charToDigit]
  · rw [if_neg hn, digitsVal_reverse_map (natDigits n) (natDigits_lt n),
      fromDigits_natDigits]

theorem takeWhile_append_all (p : Char → Bool) (xs ys : List Char)
    (hxs : ∀ a ∈ xs, p a = true)
    (hys : ∀ b tl, ys = b :: tl → p b = false) :
    (xs ++ ys).takeWhile p = xs := by
  induction xs with
  | nil =>
    cases ys with
    | nil => rfl
    | cons b tl => simp [List.takeWhile_cons, hys b tl rfl]
  | cons a as ih =>
    have ha : p a = true := hxs a (List.mem_cons_self a as)
    simp only [List.cons_append, List.takeWhile_cons, ha, if_true]
    rw [ih (fun x hx => hxs x (List.mem_cons_of_mem a hx))]

theorem dropWhile_append_all (p : Char → Bool) (xs ys : List Char)
    (hxs : ∀ a ∈ xs, p a = true)
    (hys : ∀ b tl, ys = b :: tl → p b = false) :
    (xs ++ ys).dropWhile p = ys := by
  induction xs with
  | nil =>
    cases ys with
    | nil => rfl
    | cons b tl => simp [List.dropWhile_cons, hys b tl rfl]
  | cons a as ih =>
    have ha : p a = true := hxs a (List.mem_cons_self a as)
    simp only [List.cons_append, List.dropWhile_cons, ha, if_true]
    exact ih (fun x hx => hxs x (List.mem_cons_of_mem a hx))

theorem parseNat_dumpNat (n : Nat) (rest : List Char)
    (hrest : ∀ b tl, rest = b :: tl → isDigitCh b = false) :
    parseNat (dumpNat n ++ rest) = some (n, rest) := by
  unfold parseNat
  rw [takeWhile_append_all isDigitCh (dumpNat n) rest (dumpNat_all_digits n) hrest,
    dropWhile_append_all isDigitCh (dumpNat n) rest (dumpNat_all_digits n) hrest]
  have hne : (dumpNat n).isEmpty = false := by
    cases h : dumpNat n with
    | nil => exact absurd h (dumpNat_ne_nil n)
    | cons c cs => rfl
  simp [hne, digitsVal_dumpNat]

theorem dropLeading_append (ps rest : List Char) :
    dropLeading ps (ps ++ rest) = some rest := by
  induction ps with
  | nil => rfl
  | cons p ps ih => simp [dropLeading, ih]

theorem parseItem_dumpItem (b : ChangedBlock) (rest : List Char) :
    parseItem (dumpItem b ++ rest) = some (b, rest) := by
  have h1 : dropLeading itemLead (dumpItem b ++ rest) =
      some (dumpNat b.BlockIndex ++ ('\x7d' :: rest)) := by
    have harg : dumpItem b ++ rest = itemLead ++ (dumpNat b.BlockIndex ++ ('\x7d' :: rest)) := by
      simp [dumpItem, List.append_assoc]
    rw [harg]; exact dropLeading_append _ _
  have h2 := parseNat_dumpNat b.BlockIndex ('\x7d' :: rest)
    (by intro c tl h; cases h; decide)
  simp only [parseItem, h1, h2]

theorem dumpItems_cons_eq (b b2 : ChangedBlock) (bs2 : List ChangedBlock) :
    dumpItems (b :: b2 :: bs2) = dumpItem b ++ [',', ' '] ++ dumpItems (b2 :: bs2) := rfl

theorem parseItemsAux_dumpItems : ∀ (bs : List ChangedBlock) (fuel : Nat),
    bs ≠ [] → bs.length ≤ fuel →
    parseItemsAux fuel (dumpItems bs ++ [']']) = some (bs, [']']) := by
  intro bs
  induction bs with
  | nil => intro fuel h; exact absurd rfl h
  | cons b bs ih =>
    intro fuel _ hlen
    match fuel, hlen with
    | fuel+1, hlen =>
      cases bs with
      | nil =>
        show parseItemsAux (fuel+1) (dumpItem b ++ [']']) = some ([b], [']'])
        simp only [parseItemsAux, parseItem_dumpItem b [']']]
        rfl
      | cons b2 bs2 =>
        have hstep : dumpItems (b :: b2 :: bs2) ++ [']'] =
            dumpItem b ++ (',' :: ' ' :: (dumpItems (b2 :: bs2) ++ [']'])) := by
          rw [dumpItems_cons_eq]
          simp [List.append_assoc]
        rw [hstep]
        simp only [parseItemsAux,
          parseItem_dumpItem b (',' :: ' ' :: (dumpItems (b2 :: bs2) ++ [']']))]
        rw [ih fuel (by simp) (by simpa using hlen)]

theorem dumpItems_cons_head (b : ChangedBlock) (bs : List ChangedBlock) :
    ∃ tl, dumpItems (b :: bs) = '\x7b' :: tl := by
  cases bs with
  | nil => exact ⟨_, rfl⟩
  | cons b2 bs2 => exact ⟨_, rfl⟩

theorem length_le_dumpItems : ∀ bs : List ChangedBlock,
    bs.length ≤ (dumpItems bs).length := by
  intro bs
  induction bs with
  | nil => simp [dumpItems]
  | cons b bs ih =>
    cases bs with
    | nil => simp [dumpItems, dumpItem, itemLead]
    | cons b2 bs2 =>
      rw [dumpItems_cons_eq]
      have hb : 1 ≤ (dumpItem b).length := by simp [dumpItem, itemLead]
      simp only [List.length_append, List.length_cons] at *
      omega

theorem json_loads_dumps (bs : List ChangedBlock) :
    json_loads_blocks (json_dumps_blocks bs) = some bs := by
  cases bs with
  | nil => rfl
  | cons b bs2 =>
    obtain ⟨tl, htl⟩ := dumpItems_cons_head b bs2
    have hne : ¬(dumpItems (b :: bs2) ++ [']'] = [']']) := by
      rw [htl]; intro h; simp at h
    have hfuel : (b :: bs2).length ≤ (dumpItems (b :: bs2) ++ [']']).length := by
      have := length_le_dumpItems (b :: bs2)
      simp only [List.length_append, List.length_cons] at *
      omega
    have hparse := parseItemsAux_dumpItems (b :: bs2) _ (by simp) hfuel
    simp only [json_dumps_blocks, json_loads_blocks, hne, if_false, hparse]

theorem insertByStartTime_perm (s : SnapshotDesc) (l : List SnapshotDesc) :
    (insertByStartTime s l).Perm (s :: l) := by
  induction l with
  | nil => exact List.Perm.refl _
  | cons t ts ih =>
    unfold insertByStartTime
    by_cases h : s.StartTime ≤ t.StartTime
    · rw [if_pos h]
    · rw [if_neg h]
      exact (ih.cons t).trans (List.Perm.swap s t ts)

theorem sort_snapshots_perm (l : List SnapshotDesc) :
    (sort_snapshots_by_created_date l).Perm l := by
  induction l with
  | nil => exact List.Perm.refl _
  | cons s ls ih =>
    exact (insertByStartTime_perm s _).trans (ih.cons s)

theorem get_surrounding_snapshots_absent (l : List SnapshotDesc) (t : String)
    (h : ∀ s ∈ l, s.SnapshotId ≠ t) :
    get_surrounding_snapshots (sort_snapshots_by_created_date l) t = (none, none) := by
  unfold get_surrounding_snapshots
  have hnone : (sort_snapshots_by_created_date l).findIdx?
      (fun s => s.SnapshotId == t) = none := by
    rw [List.findIdx?_eq_none_iff]
    intro s hs
    have hmem : s ∈ l := (sort_snapshots_perm l).mem_iff.mp hs
    exact beq_eq_false_iff_ne.mpr (h s hmem)
  rw [hnone]

theorem zlib_roundtrip (s : List Char) :
    zlib_decompress (zlib_compress s) = some s := rfl

theorem decompress_compress (data : List ChangedBlock) :
    decompress_json (compress_json data) = some data := by
  unfold compress_json decompress_json
  rw [zlib_roundtrip]
  exact json_loads_dumps data

/-! ### Behaviour of `main` in each scenario, under hypotheses that pin down
the provider responses the run observes -/

theorem main_BOTH_spec (env : Env) (store : CacheStore) (t : String) (p : Pricing)
    (sb : SnapshotBlocksResponse) (vol : String) (pred succ : SnapshotDesc)
    (s1 s2 : CacheStore) (rb ra : ChangedBlocksResponse)
    (hb : env.listSnapshotBlocks t = .ok sb)
    (hv : env.sourceVolumeOf t = some vol)
    (hs : get_surrounding_snapshots (sort_snapshots_by_created_date (env.volumeSnapshots vol)) t
      = (some pred, some succ))
    (h1 : get_changed_blocks env store pred.SnapshotId t = .ok (s1, some rb))
    (h2 : get_changed_blocks env s1 t succ.SnapshotId = .ok (s2, some ra)) :
    main env store t p = .ok (s2,
      { target_snapshot := t,
        source_ebs_volume_size_gb := some sb.VolumeSize,
        snapshot_block_size_bytes := some sb.BlockSize,
        approx_full_snapshot_size_bytes := some (sb.Blocks.length * sb.BlockSize),
        snapshot_source_volume_id := some vol,
        snapshot_before := some (some pred.SnapshotId),
        snapshot_after := some (some succ.SnapshotId),
        approx_size_target_snapshot_bytes :=
          some ((rb.ChangedBlocks.map ChangedBlock.BlockIndex).length * sb.BlockSize),
        approx_size_target_snapshot_removed_bytes :=
          some (((rb.ChangedBlocks.map ChangedBlock.BlockIndex).toFinset ∩
                 (ra.ChangedBlocks.map ChangedBlock.BlockIndex).toFinset).card * sb.BlockSize),
        cost_estimate_90days_target_snapshot_in_std_tier :=
          some (bytes_to_gb ((rb.ChangedBlocks.map ChangedBlock.BlockIndex).length * sb.BlockSize)
            * p.std_tier_snapshot_pricing * 3),
        cost_estimate_90days_target_snapshot_in_archive_tier :=
          some (bytes_to_gb (sb.Blocks.length * sb.BlockSize)
            * p.archive_tier_snapshot_pricing * 3) }) := by
  simp [main, get_snapshot_blocks, get_source_volume_id, get_volume_snapshots,
    determine_eval_scenario, truthy, calculate_approx_full_snapshot_size,
    hb, hv, hs, h1, h2]

theorem main_NEITHER_spec (env : Env) (store : CacheStore) (t : String) (p : Pricing)
    (sb : SnapshotBlocksResponse) (vol : String)
    (hb : env.listSnapshotBlocks t = .ok sb)
    (hv : env.sourceVolumeOf t = some vol)
    (hs : get_surrounding_snapshots (sort_snapshots_by_created_date (env.volumeSnapshots vol)) t
      = (none, none)) :
    main env store t p = .ok (store,
      { target_snapshot := t,
        source_ebs_volume_size_gb := some sb.VolumeSize,
        snapshot_block_size_bytes := some sb.BlockSize,
        approx_full_snapshot_size_bytes := some (sb.Blocks.length * sb.BlockSize),
        snapshot_source_volume_id := some vol,
        snapshot_before := some none,
        snapshot_after := some none,
        approx_size_target_snapshot_bytes := some (sb.Blocks.length * sb.BlockSize),
        approx_size_target_snapshot_removed_bytes := some (sb.Blocks.length * sb.BlockSize),
        cost_estimate_90days_target_snapshot_in_std_tier :=
          some (bytes_to_gb (sb.Blocks.length * sb.BlockSize)
            * p.std_tier_snapshot_pricing * 3),
        cost_estimate_90days_target_snapshot_in_archive_tier :=
          some (bytes_to_gb (sb.Blocks.length * sb.BlockSize)
            * p.archive_tier_snapshot_pricing * 3) }) := by
  simp [main, get_snapshot_blocks, get_source_volume_id, get_volume_snapshots,
    determine_eval_scenario, truthy, calculate_approx_full_snapshot_size,
    hb, hv, hs]

theorem main_BEFORE_spec (env : Env) (store : CacheStore) (t : String) (p : Pricing)
    (sb : SnapshotBlocksResponse) (vol : String) (pred : SnapshotDesc)
    (s1 : CacheStore) (rb : ChangedBlocksResponse)
    (hb : env.listSnapshotBlocks t = .ok sb)
    (hv : env.sourceVolumeOf t = some vol)
    (hs : get_surrounding_snapshots (sort_snapshots_by_created_date (env.volumeSnapshots vol)) t
      = (some pred, none))
    (h1 : get_changed_blocks env store pred.SnapshotId t = .ok (s1, some rb)) :
    main env store t p = .ok (s1,
      { target_snapshot := t,
        source_ebs_volume_size_gb := some sb.VolumeSize,
        snapshot_block_size_bytes := some sb.BlockSize,
        approx_full_snapshot_size_bytes := some (sb.Blocks.length * sb.BlockSize),
        snapshot_source_volume_id := some vol,
        snapshot_before := some (some pred.SnapshotId),
        snapshot_after := some none,
        approx_size_target_snapshot_bytes := some (rb.ChangedBlocks.length * sb.BlockSize),
        approx_size_target_snapshot_removed_bytes := some (rb.ChangedBlocks.length * sb.BlockSize),
        cost_estimate_90days_target_snapshot_in_std_tier :=
          some (bytes_to_gb (rb.ChangedBlocks.length * sb.BlockSize)
            * p.std_tier_snapshot_pricing * 3),
        cost_estimate_90days_target_snapshot_in_archive_tier :=
          some (bytes_to_gb (sb.Blocks.length * sb.BlockSize)
            * p.archive_tier_snapshot_pricing * 3) }) := by
  simp [main, get_snapshot_blocks, get_source_volume_id, get_volume_snapshots,
    determine_eval_scenario, truthy, calculate_approx_full_snapshot_size,
    hb, hv, hs, h1]

theorem main_AFTER_spec (env : Env) (store : CacheStore) (t : String) (p : Pricing)
    (sb : SnapshotBlocksResponse) (vol : String) (succ : SnapshotDesc)
    (s1 : CacheStore) (ra : ChangedBlocksResponse)
    (hb : env.listSnapshotBlocks t = .ok sb)
    (hv : env.sourceVolumeOf t = some vol)
    (hs : get_surrounding_snapshots (sort_snapshots_by_created_date (env.volumeSnapshots vol)) t
      = (none, some succ))
    (h1 : get_changed_blocks env store t succ.SnapshotId = .ok (s1, some ra)) :
    main env store t p = .ok (s1,
      { target_snapshot := t,
        source_ebs_volume_size_gb := some sb.VolumeSize,
        snapshot_block_size_bytes := some sb.BlockSize,
        approx_full_snapshot_size_bytes := some (sb.Blocks.length * sb.BlockSize),
        snapshot_source_volume_id := some vol,
        snapshot_before := some none,
        snapshot_after := some (some succ.SnapshotId),
        approx_size_target_snapshot_bytes := some (sb.Blocks.length * sb.BlockSize),
        approx_size_target_snapshot_removed_bytes :=
          some (ra.ChangedBlocks.length * sb.BlockSize),
        cost_estimate_90days_target_snapshot_in_std_tier :=
          some (bytes_to_gb (sb.Blocks.length * sb.BlockSize)
            * p.std_tier_snapshot_pricing * 3),
        cost_estimate_90days_target_snapshot_in_archive_tier :=
          some (bytes_to_gb (sb.Blocks.length * sb.BlockSize)
            * p.archive_tier_snapshot_pricing * 3) }) := by
  simp [main, get_snapshot_blocks, get_source_volume_id, get_volume_snapshots,
    determine_eval_scenario, truthy, calculate_approx_full_snapshot_size,
    hb, hv, hs, h1]

/-! ### Claim C5 -/

/-- C5: the scenario classifier is a total pure function of the two neighbour
presence flags; for every input combination it returns exactly the scenario
of the truth table — (absent, absent) ↦ NEITHER, (present, present) ↦ BOTH,
(present, absent) ↦ BEFORE, (absent, present) ↦ AFTER — and it never reaches
the raising `else` branch. -/
theorem C5_classifier_total (snapshot_before snapshot_after : Option SnapshotDesc) :
    determine_eval_scenario snapshot_before snapshot_after = .ok
      (match snapshot_before, snapshot_after with
        | none, none => .NEITHER
        | some _, some _ => .BOTH
        | some _, none => .BEFORE
        | none, some _ => .AFTER) := by
  cases snapshot_before <;> cases snapshot_after <;> rfl

/-! ### Claim C9 -/

/-- C9: decompressing the compressed serialisation of any block-index list
returns the original data exactly, and storing a changed-block set in the
cache under an ordered pair and then reading that pair back yields the
identical set after decompression. -/
theorem C9_cache_roundtrip :
    (∀ data : List ChangedBlock, decompress_json (compress_json data) = some data) ∧
    (∀ (env : Env) (store : CacheStore) (snap1 snap2 : String) (data : List ChangedBlock)
      (store1 : CacheStore),
      store_cached_changed_blocks env store snap1 snap2 data = .ok store1 →
      env.s3GetFault (s3_cache_path snap1 snap2) = false →
      get_cached_changed_blocks env store1 snap1 snap2 = some { ChangedBlocks := data }) := by
  refine ⟨decompress_compress, ?_⟩
  intro env store snap1 snap2 data store1 hstore hfault
  simp only [store_cached_changed_blocks] at hstore
  split at hstore
  · exact Except.noConfusion hstore
  · have h1 : store1 = (s3_cache_path snap1 snap2, compress_json data) :: store :=
      (Except.ok.inj hstore).symm
    subst h1
    simp [get_cached_changed_blocks, hfault, List.lookup, decompress_compress]

/-- Benign environment for the C9 witness. -/
def envC9 : Env :=
  { listSnapshotBlocks := fun _ => .notFound
    sourceVolumeOf := fun _ => none
    volumeSnapshots := fun _ => []
    listChangedBlocks := fun _ _ => .notFound
    s3GetFault := fun _ => false
    s3PutFault := fun _ => false }

/-- C9 witness: the round trip evaluated on the block-index set 5, 9, 100. -/
theorem C9_witness :
    decompress_json (compress_json [⟨5⟩, ⟨9⟩, ⟨100⟩]) = some [⟨5⟩, ⟨9⟩, ⟨100⟩] ∧
    store_cached_changed_blocks envC9 [] "snapA" "snapB" [⟨5⟩, ⟨9⟩, ⟨100⟩] =
      .ok [(s3_cache_path "snapA" "snapB", compress_json [⟨5⟩, ⟨9⟩, ⟨100⟩])] ∧
    get_cached_changed_blocks envC9
      [(s3_cache_path "snapA" "snapB", compress_json [⟨5⟩, ⟨9⟩, ⟨100⟩])] "snapA" "snapB" =
      some { ChangedBlocks := [⟨5⟩, ⟨9⟩, ⟨100⟩] } :=
  ⟨C9_cache_roundtrip.1 _, rfl,
    C9_cache_roundtrip.2 envC9 [] "snapA" "snapB" [⟨5⟩, ⟨9⟩, ⟨100⟩] _ rfl rfl⟩

/-! ### Claim C10 -/

/-- C10: whenever the cache read is anything but a successful decodable hit —
the S3 get faults, the key is absent, or the stored body fails to decompress
— the lookup returns a miss (`none`, Python `False`) rather than raising, and
`get_changed_blocks` falls back to the live provider query
(`fetch_and_store`). -/
theorem C10_cache_read_failure_miss (env : Env) (store : CacheStore) (snap1 snap2 : String)
    (h : env.s3GetFault (s3_cache_path snap1 snap2) = true ∨
         store.lookup (s3_cache_path snap1 snap2) = none ∨
         ∃ body, store.lookup (s3_cache_path snap1 snap2) = some body ∧
           decompress_json body = none) :
    get_cached_changed_blocks env store snap1 snap2 = none ∧
    get_changed_blocks env store snap1 snap2 = fetch_and_store env store snap1 snap2 := by
  have hcache : get_cached_changed_blocks env store snap1 snap2 = none := by
    unfold get_cached_changed_blocks
    rcases h with h | h | ⟨body, hbody, hdec⟩
    · simp [h]
    · cases hf : env.s3GetFault (s3_cache_path snap1 snap2) <;> simp [hf, h]
    · cases hf : env.s3GetFault (s3_cache_path snap1 snap2) <;> simp [hf, hbody, hdec]
  refine ⟨hcache, ?_⟩
  unfold get_changed_blocks
  rw [hcache]

/-- Environment for the C10 witness. -/
def envC10 : Env :=
  { listSnapshotBlocks := fun _ => .notFound
    sourceVolumeOf := fun _ => none
    volumeSnapshots := fun _ => []
    listChangedBlocks := fun _ _ => .ok []
    s3GetFault := fun _ => false
    s3PutFault := fun _ => false }

/-- C10 witness: a corrupt cache entry (the single byte `A` is not a zlib
stream) is treated as a miss and the evaluation falls back to the provider. -/
theorem C10_witness :
    get_cached_changed_blocks envC10 [(s3_cache_path "a" "b", ['A'])] "a" "b" = none ∧
    get_changed_blocks envC10 [(s3_cache_path "a" "b", ['A'])] "a" "b" =
      fetch_and_store envC10 [(s3_cache_path "a" "b", ['A'])] "a" "b" :=
  C10_cache_read_failure_miss envC10 [(s3_cache_path "a" "b", ['A'])] "a" "b"
    (Or.inr (Or.inr ⟨['A'], rfl, rfl⟩))

/-! ### Claim C4 -/

/-- Environment for the C4 counterexample: the provider diff succeeds but
every cache store fails. -/
def envC4 : Env :=
  { listSnapshotBlocks := fun _ => .notFound
    sourceVolumeOf := fun _ => none
    volumeSnapshots := fun _ => []
    listChangedBlocks := fun _ _ => .ok [⟨0⟩]
    s3GetFault := fun _ => false
    s3PutFault := fun _ => true }

/-- C4 counterexample: on a cache miss with a successful provider query, a
failing cache store makes `get_changed_blocks` raise (`store_cached_changed_blocks`
has no exception handler and the surrounding `try` only catches the two EBS
exception types), so the freshly computed diff is *not* returned and the
evaluation aborts — contradicting the claim that a cache-store failure never
fails the evaluation. -/
theorem C4_counterexample :
    get_changed_blocks envC4 [] "snap-a" "snap-b" = .error .s3PutError := rfl

/-- C4 amended: on a cache miss the provider is queried and the result is
then stored in the cache; when the store succeeds the freshly computed diff
is returned together with the new cache entry, but when the store fails the
failure propagates out of `get_changed_blocks` and aborts the evaluation
(the store is not best-effort). -/
theorem C4_store_not_best_effort (env : Env) (store : CacheStore) (snap1 snap2 : String)
    (blocks : List ChangedBlock)
    (hmiss : get_cached_changed_blocks env store snap1 snap2 = none)
    (hq : env.listChangedBlocks snap1 snap2 = .ok blocks) :
    (env.s3PutFault (s3_cache_path snap1 snap2) = false →
      get_changed_blocks env store snap1 snap2 =
        .ok ((s3_cache_path snap1 snap2, compress_json blocks) :: store,
          some { ChangedBlocks := blocks })) ∧
    (env.s3PutFault (s3_cache_path snap1 snap2) = true →
      get_changed_blocks env store snap1 snap2 = .error .s3PutError) := by
  constructor <;> intro hf <;>
    simp [get_changed_blocks, hmiss, fetch_and_store, hq, store_cached_changed_blocks, hf]

/-- Environment for the C4 witness: like `envC4` but with a healthy cache
store. -/
def envC4w : Env :=
  { envC4 with s3PutFault := fun _ => false }

/-- C4 witness: the amended statement evaluated on a concrete miss — the
provider diff is returned and the cache gains the entry for the ordered
pair. -/
theorem C4_witness :
    get_cached_changed_blocks envC4w [] "snap-a" "snap-b" = none ∧
    envC4w.listChangedBlocks "snap-a" "snap-b" = .ok [⟨0⟩] ∧
    get_changed_blocks envC4w [] "snap-a" "snap-b" =
      .ok ([(s3_cache_path "snap-a" "snap-b", compress_json [⟨0⟩])],
        some { ChangedBlocks := [⟨0⟩] }) :=
  ⟨rfl, rfl,
    (C4_store_not_best_effort envC4w [] "snap-a" "snap-b" [⟨0⟩] rfl rfl).1 rfl⟩

/-! ### Claim C1 -/

/-- C1: in the BOTH scenario, for every pair of changed-block lists
`changedBefore` (predecessor → target) and `changedAfter` (target →
successor), the evaluation sets `sizeIfOnline = |changedBefore| * blockSize`
and `sizeFreedIfArchived = |changedBefore ∩ changedAfter| * blockSize` (the
set intersection of block indices), and a second run observing the same
lists in any other iteration order produces the same two values. -/
theorem C1_both_order_independent
    (env env2 : Env) (store store2 : CacheStore) (t : String) (p : Pricing)
    (sb : SnapshotBlocksResponse) (vol : String) (pred succ : SnapshotDesc)
    (s1 s2 s1b s2b : CacheStore) (rb ra rb2 ra2 : ChangedBlocksResponse)
    (hb : env.listSnapshotBlocks t = .ok sb)
    (hv : env.sourceVolumeOf t = some vol)
    (hs : get_surrounding_snapshots (sort_snapshots_by_created_date (env.volumeSnapshots vol)) t
      = (some pred, some succ))
    (h1 : get_changed_blocks env store pred.SnapshotId t = .ok (s1, some rb))
    (h2 : get_changed_blocks env s1 t succ.SnapshotId = .ok (s2, some ra))
    (hb2 : env2.listSnapshotBlocks t = .ok sb)
    (hv2 : env2.sourceVolumeOf t = some vol)
    (hs2 : get_surrounding_snapshots (sort_snapshots_by_created_date (env2.volumeSnapshots vol)) t
      = (some pred, some succ))
    (h1b : get_changed_blocks env2 store2 pred.SnapshotId t = .ok (s1b, some rb2))
    (h2b : get_changed_blocks env2 s1b t succ.SnapshotId = .ok (s2b, some ra2))
    (hpb : (rb2.ChangedBlocks.map ChangedBlock.BlockIndex).Perm
      (rb.ChangedBlocks.map ChangedBlock.BlockIndex))
    (hpa : (ra2.ChangedBlocks.map ChangedBlock.BlockIndex).Perm
      (ra.ChangedBlocks.map ChangedBlock.BlockIndex)) :
    (∃ ed, main env store t p = .ok (s2, ed) ∧
      ed.approx_size_target_snapshot_bytes =
        some ((rb.ChangedBlocks.map ChangedBlock.BlockIndex).length * sb.BlockSize) ∧
      ed.approx_size_target_snapshot_removed_bytes =
        some (((rb.ChangedBlocks.map ChangedBlock.BlockIndex).toFinset ∩
               (ra.ChangedBlocks.map ChangedBlock.BlockIndex).toFinset).card * sb.BlockSize)) ∧
    (∃ ed2, main env2 store2 t p = .ok (s2b, ed2) ∧
      ed2.approx_size_target_snapshot_bytes =
        some ((rb.ChangedBlocks.map ChangedBlock.BlockIndex).length * sb.BlockSize) ∧
      ed2.approx_size_target_snapshot_removed_bytes =
        some (((rb.ChangedBlocks.map ChangedBlock.BlockIndex).toFinset ∩
               (ra.ChangedBlocks.map ChangedBlock.BlockIndex).toFinset).card * sb.BlockSize)) := by
  constructor
  · exact ⟨_, main_BOTH_spec env store t p sb vol pred succ s1 s2 rb ra hb hv hs h1 h2,
      rfl, rfl⟩
  · refine ⟨_, main_BOTH_spec env2 store2 t p sb vol pred succ s1b s2b rb2 ra2
      hb2 hv2 hs2 h1b h2b, ?_, ?_⟩
    · simp [hpb.length_eq]
    · rw [List.toFinset_eq_of_perm _ _ hpb, List.toFinset_eq_of_perm _ _ hpa]

/-- Environment for the C1 witness: chain `s1 → t → s3`, with
`changedBefore = [1, 2, 3]` and `changedAfter = [2, 3, 4]`. -/
def envC1 : Env :=
  { listSnapshotBlocks := fun _ => .ok { Blocks := [0, 1, 2, 3, 4], VolumeSize := 1, BlockSize := 512 }
    sourceVolumeOf := fun _ => some "vol-1"
    volumeSnapshots := fun _ => [⟨"s1", 1⟩, ⟨"t", 2⟩, ⟨"s3", 3⟩]
    listChangedBlocks := fun a b =>
      if a = "s1" ∧ b = "t" then .ok [⟨1⟩, ⟨2⟩, ⟨3⟩]
      else if a = "t" ∧ b = "s3" then .ok [⟨2⟩, ⟨3⟩, ⟨4⟩]
      else .notFound
    s3GetFault := fun _ => false
    s3PutFault := fun _ => false }

/-- Variant of `envC1` in which the provider reports the same changed-block
lists in reversed iteration order. -/
def envC1b : Env :=
  { envC1 with
    listChangedBlocks := fun a b =>
      if a = "s1" ∧ b = "t" then .ok [⟨3⟩, ⟨2⟩, ⟨1⟩]
      else if a = "t" ∧ b = "s3" then .ok [⟨4⟩, ⟨3⟩, ⟨2⟩]
      else .notFound }

/-- C1 witness: the BOTH-scenario arithmetic on `before = (1,2,3)` and
`after = (2,3,4)` with block size 512 gives `sizeIfOnline = 3 * 512` and
`sizeFreedIfArchived = 2 * 512` (only indices 2 and 3 are in both), in both
iteration orders. -/
theorem C1_witness :
    (∃ ed, main envC1 [] "t" ⟨1/20, 1/100⟩ = .ok
        ([("cache/t_s3.json.zlib", compress_json [⟨2⟩, ⟨3⟩, ⟨4⟩]),
          ("cache/s1_t.json.zlib", compress_json [⟨1⟩, ⟨2⟩, ⟨3⟩])], ed) ∧
      ed.approx_size_target_snapshot_bytes = some 1536 ∧
      ed.approx_size_target_snapshot_removed_bytes = some 1024) ∧
    (∃ ed2, main envC1b [] "t" ⟨1/20, 1/100⟩ = .ok
        ([("cache/t_s3.json.zlib", compress_json [⟨4⟩, ⟨3⟩, ⟨2⟩]),
          ("cache/s1_t.json.zlib", compress_json [⟨3⟩, ⟨2⟩, ⟨1⟩])], ed2) ∧
      ed2.approx_size_target_snapshot_bytes = some 1536 ∧
      ed2.approx_size_target_snapshot_removed_bytes = some 1024) :=
  C1_both_order_independent envC1 envC1b [] [] "t" ⟨1/20, 1/100⟩
    { Blocks := [0, 1, 2, 3, 4], VolumeSize := 1, BlockSize := 512 } "vol-1"
    ⟨"s1", 1⟩ ⟨"s3", 3⟩ _ _ _ _ ⟨[⟨1⟩, ⟨2⟩, ⟨3⟩]⟩ ⟨[⟨2⟩, ⟨3⟩, ⟨4⟩]⟩
    ⟨[⟨3⟩, ⟨2⟩, ⟨1⟩]⟩ ⟨[⟨4⟩, ⟨3⟩, ⟨2⟩]⟩
    rfl rfl rfl rfl rfl rfl rfl rfl rfl rfl (by decide) (by decide)

/-! ### Claim C6 -/

/-- C6: in the AFTER scenario (successor only), the evaluation sets
`sizeIfOnline = totalBlockCount * blockSize` and
`sizeFreedIfArchived = |changedAfter| * blockSize`; in particular an empty
`changedAfter` gives `sizeFreedIfArchived = 0` while `sizeIfOnline` stays the
full block count times the block size. -/
theorem C6_after_scenario (env : Env) (store : CacheStore) (t : String) (p : Pricing)
    (sb : SnapshotBlocksResponse) (vol : String) (succ : SnapshotDesc)
    (s1 : CacheStore) (ra : ChangedBlocksResponse)
    (hb : env.listSnapshotBlocks t = .ok sb)
    (hv : env.sourceVolumeOf t = some vol)
    (hs : get_surrounding_snapshots (sort_snapshots_by_created_date (env.volumeSnapshots vol)) t
      = (none, some succ))
    (h1 : get_changed_blocks env store t succ.SnapshotId = .ok (s1, some ra)) :
    ∃ ed, main env store t p = .ok (s1, ed) ∧
      ed.approx_size_target_snapshot_bytes = some (sb.Blocks.length * sb.BlockSize) ∧
      ed.approx_size_target_snapshot_removed_bytes =
        some (ra.ChangedBlocks.length * sb.BlockSize) ∧
      (ra.ChangedBlocks = [] →
        ed.approx_size_target_snapshot_removed_bytes = some 0) :=
  ⟨_, main_AFTER_spec env store t p sb vol succ s1 ra hb hv hs h1, rfl, rfl,
    by intro he; simp [he]⟩

/-- Environment for the C6 witness: chain `t6 → s2` with an empty
changed-block delta between target and successor. -/
def envC6 : Env :=
  { listSnapshotBlocks := fun _ => .ok { Blocks := [0, 1, 2, 3, 4], VolumeSize := 1, BlockSize := 512 }
    sourceVolumeOf := fun _ => some "vol-6"
    volumeSnapshots := fun _ => [⟨"t6", 1⟩, ⟨"s2", 2⟩]
    listChangedBlocks := fun a b => if a = "t6" ∧ b = "s2" then .ok [] else .notFound
    s3GetFault := fun _ => false
    s3PutFault := fun _ => false }

/-- C6 witness: with 5 blocks of 512 bytes and an empty `changedAfter`,
`sizeIfOnline = 5 * 512 = 2560` while `sizeFreedIfArchived = 0`. -/
theorem C6_witness :
    ∃ ed, main envC6 [] "t6" ⟨1/20, 1/100⟩ =
        .ok ([("cache/t6_s2.json.zlib", compress_json [])], ed) ∧
      ed.approx_size_target_snapshot_bytes = some 2560 ∧
      ed.approx_size_target_snapshot_removed_bytes = some 0 ∧
      (([] : List ChangedBlock) = [] →
        ed.approx_size_target_snapshot_removed_bytes = some 0) :=
  C6_after_scenario envC6 [] "t6" ⟨1/20, 1/100⟩
    { Blocks := [0, 1, 2, 3, 4], VolumeSize := 1, BlockSize := 512 } "vol-6"
    ⟨"s2", 2⟩ _ ⟨[]⟩ rfl rfl rfl rfl

/-! ### Claim C7 -/

/-- C7: whenever the target has neither predecessor nor successor in its
sorted chain, the scenario is classified NEITHER and the evaluation sets
both `sizeIfOnline` and `sizeFreedIfArchived` to the full snapshot size
`blockCount * blockSize`; moreover a target that is absent from its own
freshly enumerated chain yields `(absent, absent)` rather than a failure. -/
theorem C7_neither_full_size (env : Env) (store : CacheStore) (t : String) (p : Pricing)
    (sb : SnapshotBlocksResponse) (vol : String)
    (hb : env.listSnapshotBlocks t = .ok sb)
    (hv : env.sourceVolumeOf t = some vol)
    (hs : get_surrounding_snapshots (sort_snapshots_by_created_date (env.volumeSnapshots vol)) t
      = (none, none)) :
    determine_eval_scenario none none = .ok .NEITHER ∧
    (∃ ed, main env store t p = .ok (store, ed) ∧
      ed.snapshot_before = some none ∧ ed.snapshot_after = some none ∧
      ed.approx_size_target_snapshot_bytes = some (sb.Blocks.length * sb.BlockSize) ∧
      ed.approx_size_target_snapshot_removed_bytes = some (sb.Blocks.length * sb.BlockSize) ∧
      ed.error_code = none) ∧
    (∀ (chain : List SnapshotDesc) (t2 : String), (∀ s ∈ chain, s.SnapshotId ≠ t2) →
      get_surrounding_snapshots (sort_snapshots_by_created_date chain) t2 = (none, none)) :=
  ⟨rfl,
    ⟨_, main_NEITHER_spec env store t p sb vol hb hv hs, rfl, rfl, rfl, rfl, rfl⟩,
    fun chain t2 h => get_surrounding_snapshots_absent chain t2 h⟩

/-- Environment for the C7 witness: the freshly enumerated chain of the
volume does not contain the target snapshot at all. -/
def envC7 : Env :=
  { listSnapshotBlocks := fun _ => .ok { Blocks := [0, 1, 2], VolumeSize := 1, BlockSize := 512 }
    sourceVolumeOf := fun _ => some "vol-7"
    volumeSnapshots := fun _ => [⟨"other", 5⟩]
    listChangedBlocks := fun _ _ => .notFound
    s3GetFault := fun _ => false
    s3PutFault := fun _ => false }

/-- C7 witness: a target absent from its own chain is evaluated as NEITHER
with the full size `3 * 512 = 1536` in both size fields and no error. -/
theorem C7_witness :
    determine_eval_scenario none none = .ok .NEITHER ∧
    (∃ ed, main envC7 [] "t7" ⟨1/20, 1/100⟩ = .ok ([], ed) ∧
      ed.snapshot_before = some none ∧ ed.snapshot_after = some none ∧
      ed.approx_size_target_snapshot_bytes = some 1536 ∧
      ed.approx_size_target_snapshot_removed_bytes = some 1536 ∧
      ed.error_code = none) ∧
    (∀ (chain : List SnapshotDesc) (t2 : String), (∀ s ∈ chain, s.SnapshotId ≠ t2) →
      get_surrounding_snapshots (sort_snapshots_by_created_date chain) t2 = (none, none)) :=
  C7_neither_full_size envC7 [] "t7" ⟨1/20, 1/100⟩
    { Blocks := [0, 1, 2], VolumeSize := 1, BlockSize := 512 } "vol-7" rfl rfl rfl

/-! ### Claim C8 -/

/-- C8: when the diff query reports the first snapshot of an ordered pair as
structurally empty (a `ValidationException` whose message contains
`"is empty"`), the diff operation returns an empty ChangedBlockSet as a
normal result instead of propagating an error, and the evaluation of that
target completes without an error code, with zero changed blocks. -/
theorem C8_empty_first_snapshot (env : Env) (store : CacheStore) (t : String) (p : Pricing)
    (sb : SnapshotBlocksResponse) (vol : String) (pred : SnapshotDesc) (msg : List Char)
    (hmiss : get_cached_changed_blocks env store pred.SnapshotId t = none)
    (hdiff : env.listChangedBlocks pred.SnapshotId t = .validationError msg)
    (hempty : hasSubstr isEmptyMsg msg = true)
    (hb : env.listSnapshotBlocks t = .ok sb)
    (hv : env.sourceVolumeOf t = some vol)
    (hs : get_surrounding_snapshots (sort_snapshots_by_created_date (env.volumeSnapshots vol)) t
      = (some pred, none)) :
    get_changed_blocks env store pred.SnapshotId t = .ok (store, some { ChangedBlocks := [] }) ∧
    (∃ ed, main env store t p = .ok (store, ed) ∧ ed.error_code = none ∧
      ed.approx_size_target_snapshot_bytes = some 0 ∧
      ed.approx_size_target_snapshot_removed_bytes = some 0) := by
  have hget : get_changed_blocks env store pred.SnapshotId t =
      .ok (store, some { ChangedBlocks := [] }) := by
    simp [get_changed_blocks, hmiss, fetch_and_store, hdiff, hempty]
  exact ⟨hget,
    ⟨_, main_BEFORE_spec env store t p sb vol pred store ⟨[]⟩ hb hv hs hget,
      rfl, by simp, by simp⟩⟩

/-- Environment for the C8 witness: the provider reports the predecessor
`s0` as an empty snapshot when diffing `s0 → t8`. -/
def envC8 : Env :=
  { listSnapshotBlocks := fun _ => .ok { Blocks := [0, 1], VolumeSize := 1, BlockSize := 512 }
    sourceVolumeOf := fun _ => some "vol-8"
    volumeSnapshots := fun _ => [⟨"s0", 1⟩, ⟨"t8", 2⟩]
    listChangedBlocks := fun a b =>
      if a = "s0" ∧ b = "t8" then .validationError "first snapshot is empty".toList
      else .notFound
    s3GetFault := fun _ => false
    s3PutFault := fun _ => false }

/-- C8 witness: the empty-snapshot edge case evaluated concretely — the diff
returns the crafted empty response and the evaluation completes with zero
changed-block sizes. -/
theorem C8_witness :
    get_changed_blocks envC8 [] "s0" "t8" = .ok ([], some { ChangedBlocks := [] }) ∧
    (∃ ed, main envC8 [] "t8" ⟨1/20, 1/100⟩ = .ok ([], ed) ∧ ed.error_code = none ∧
      ed.approx_size_target_snapshot_bytes = some 0 ∧
      ed.approx_size_target_snapshot_removed_bytes = some 0) :=
  C8_empty_first_snapshot envC8 [] "t8" ⟨1/20, 1/100⟩
    { Blocks := [0, 1], VolumeSize := 1, BlockSize := 512 } "vol-8" ⟨"s0", 1⟩
    "first snapshot is empty".toList rfl rfl (by decide) rfl rfl rfl

/-! ### Claim C2 -/

/-- Environment for the C2 counterexample: BOTH scenario with
`changedBefore = [1]`, `changedAfter = []`, block size one binary GB, so
`sizeIfOnline = 2^30` while `sizeFreedIfArchived = 0`. -/
def envC2 : Env :=
  { listSnapshotBlocks := fun _ => .ok { Blocks := [0], VolumeSize := 1, BlockSize := 1073741824 }
    sourceVolumeOf := fun _ => some "vol-2"
    volumeSnapshots := fun _ => [⟨"a2", 1⟩, ⟨"t2", 2⟩, ⟨"z2", 3⟩]
    listChangedBlocks := fun a b =>
      if a = "a2" ∧ b = "t2" then .ok [⟨1⟩]
      else if a = "t2" ∧ b = "z2" then .ok []
      else .notFound
    s3GetFault := fun _ => false
    s3PutFault := fun _ => false }

/-- C2 counterexample: a completed evaluation whose `sizeFreedIfArchived` is
0 bytes carries a standard-tier 90-day estimate computed from the *online*
size (`2^30` bytes), which differs from `bytesToGB(sizeFreedIfArchived) * p * 3`
— the source derives the standard-tier estimate from
`approx_size_target_snapshot_bytes`, not from the freed size. -/
theorem C2_counterexample :
    ∃ s ed, main envC2 [] "t2" ⟨1/20, 1/100⟩ = .ok (s, ed) ∧
      ed.approx_size_target_snapshot_removed_bytes = some 0 ∧
      ed.cost_estimate_90days_target_snapshot_in_std_tier =
        some (bytes_to_gb 1073741824 * (1/20) * 3) ∧
      bytes_to_gb 1073741824 * (1/20 : Rat) * 3 ≠ bytes_to_gb 0 * (1/20) * 3 := by
  refine ⟨_, _, main_BOTH_spec envC2 [] "t2" ⟨1/20, 1/100⟩
    { Blocks := [0], VolumeSize := 1, BlockSize := 1073741824 } "vol-2"
    ⟨"a2", 1⟩ ⟨"z2", 3⟩ _ _ ⟨[⟨1⟩]⟩ ⟨[]⟩ rfl rfl rfl rfl rfl, rfl, rfl, ?_⟩
  have h1 : roundSig53 1073741824 = 1073741824 := by decide
  have h0 : roundSig53 0 = 0 := by decide
  simp only [bytes_to_gb, h1, h0]
  norm_num

/-- C2 amended: for every completed evaluation, the 90-day standard-tier
estimate equals `bytesToGB(sizeIfOnline) * p * 3` — computed from the
snapshot's online size (`approx_size_target_snapshot_bytes`), not from
`sizeFreedIfArchived` — where `bytesToGB` divides by the binary GB `2^30`
(with binary64 float rounding) and the prices are the caller-supplied exact
decimals. -/
theorem C2_std_cost_uses_online_size (env : Env) (store : CacheStore) (t : String)
    (p : Pricing) (s : CacheStore) (ed : EvalData) (x : Nat)
    (hmain : main env store t p = .ok (s, ed))
    (hx : ed.approx_size_target_snapshot_bytes = some x) :
    ed.cost_estimate_90days_target_snapshot_in_std_tier =
      some (bytes_to_gb x * p.std_tier_snapshot_pricing * 3) := by
  simp only [main] at hmain
  repeat' split at hmain
  all_goals
    first
      | exact Except.noConfusion hmain
      | (injection hmain with hpair;
         injection hpair with hstore hed;
         subst hed;
         first
           | exact Option.noConfusion hx
           | (injection hx with hv; subst hv; rfl))

/-- Environment for the C2 witness: a single-snapshot volume whose full size
is exactly 10 binary GB. -/
def envC2w : Env :=
  { listSnapshotBlocks := fun _ =>
      .ok { Blocks := [0, 1, 2, 3, 4, 5, 6, 7, 8, 9], VolumeSize := 10, BlockSize := 1073741824 }
    sourceVolumeOf := fun _ => some "vol-2w"
    volumeSnapshots := fun _ => [⟨"t2w", 1⟩]
    listChangedBlocks := fun _ _ => .notFound
    s3GetFault := fun _ => false
    s3PutFault := fun _ => false }

/-- C2 witness: the amended statement evaluated on a 10-GB online size at
$0.05 per GB-month, giving exactly $1.50 for the 90-day horizon. -/
theorem C2_witness :
    (∃ s ed, main envC2w [] "t2w" ⟨1/20, 1/100⟩ = .ok (s, ed) ∧
      ed.approx_size_target_snapshot_bytes = some 10737418240 ∧
      ed.cost_estimate_90days_target_snapshot_in_std_tier =
        some (bytes_to_gb 10737418240 * (1/20) * 3)) ∧
    bytes_to_gb 10737418240 * (1/20 : Rat) * 3 = 3/2 := by
  constructor
  · exact ⟨_, _, rfl, rfl,
      C2_std_cost_uses_online_size envC2w [] "t2w" ⟨1/20, 1/100⟩ _ _ _ rfl rfl⟩
  · have h : roundSig53 10737418240 = 10737418240 := by decide
    simp only [bytes_to_gb, h]
    norm_num

/-! ### Claim C3 -/

/-- Environment for the C3 failing input: block listings report the
snapshots as missing, so each target would produce a structured error
record. -/
def envC3 : Env :=
  { listSnapshotBlocks := fun _ => .notFound
    sourceVolumeOf := fun _ => none
    volumeSnapshots := fun _ => []
    listChangedBlocks := fun _ _ => .notFound
    s3GetFault := fun _ => false
    s3PutFault := fun _ => false }

/-- C3: a batch of two job records produces exactly one result, not two —
the `return True` of `lambda_handler` sits inside the `for record in
event['Records']` loop, so the second record is dropped without evaluation.
The single produced row does show the per-target error downgraded to a
structured record (`SNAPSHOT_BLOCKS_NOT_FOUND`) rather than an exception. -/
theorem C3_batch_drops_records :
    ∃ row, lambda_handler envC3 []
        [{ jobid := "job1", snapshot_id := "snap-1", pricing_data := ⟨1/20, 1/100⟩ },
         { jobid := "job1", snapshot_id := "snap-2", pricing_data := ⟨1/20, 1/100⟩ }] =
        .ok ([], [row], some true) ∧
      row.SnapshotId = "snap-1" ∧
      row.data.error_code = some "SNAPSHOT_BLOCKS_NOT_FOUND" :=
  ⟨_, rfl, rfl, rfl⟩

end EbsEval
